import Mathlib

/-
Verification of the "Luna" conversational lead-capture engine of the glxsite
repository (src/js/spotlight.js, class LunaChatbot), against its
natural-language specification.

The JavaScript is shallowly embedded: the mutable instance fields
(`this.flowState`, `this.leadData`) together with the browser-owned
`localStorage` and the rendered message list form a `World`; the external
collaborators the chatbot reads (`window.sendContactEmail` presence, the
per-attempt resolve/reject behaviour of the send operation, `window.crypto`
availability and the randomness it yields, `Date`) are bundled in an `Env`.
Strings are modelled with Lean `String`/`List Char`; JavaScript's UTF-16
`.length` is modelled by `jsLength`, and `trim`/`toLowerCase`/`toUpperCase`
are modelled on the ASCII/BMP fragment actually exercised by the code.
-/

namespace Luna

/-- JS `String.prototype.trim`: drop leading and trailing whitespace. -/
def jsTrim (s : String) : String :=
  ⟨((s.data.dropWhile Char.isWhitespace).reverse.dropWhile Char.isWhitespace).reverse⟩

/-- JS `String.prototype.toLowerCase`, on the ASCII letters the chatbot's
keyword matching relies on (accented keyword characters are already
lower-case in the source's trigger list). -/
def jsToLower (s : String) : String := ⟨s.data.map Char.toLower⟩

/-- JS `String.prototype.toUpperCase`, on ASCII letters (the protocol
generator only upper-cases hexadecimal / base-36 digits). -/
def jsToUpper (s : String) : String := ⟨s.data.map Char.toUpper⟩

/-- JS `String.prototype.length`: the number of UTF-16 code units (astral
characters count twice). -/
def jsLength (s : String) : Nat :=
  s.data.foldl (fun n c => n + (if c.toNat < 65536 then 1 else 2)) 0

/-- Is `pat` a prefix of the second list? (Boolean, executable.) -/
def isPrefixL : List Char → List Char → Bool
  | [], _ => true
  | _ :: _, [] => false
  | p :: ps, c :: cs => p == c && isPrefixL ps cs

/-- Does `pat` occur as a contiguous run anywhere in the second list? -/
def isInfixL (pat : List Char) : List Char → Bool
  | [] => pat.isEmpty
  | l@(_ :: cs) => isPrefixL pat l || isInfixL pat cs

/-- JS `String.prototype.includes`: substring containment. -/
def jsIncludes (s sub : String) : Bool := isInfixL sub.data s.data

/-- JS `s.split(' ')[0]`: the prefix of `s` before the first space. -/
def firstWord (s : String) : String := ⟨s.data.takeWhile (fun c => !(c == ' '))⟩

/-- JS template-literal interpolation of a possibly-absent object field:
an absent (`undefined`) field renders as the string "undefined". -/
def jsStr (o : Option String) : String := o.getD "undefined"

/-- Upper-case hexadecimal digit, as emitted by JS `encodeURIComponent`. -/
def hexDigit (n : Nat) : Char := if n < 10 then Char.ofNat (48 + n) else Char.ofNat (55 + n)

/-- Percent-encoding of one byte: `%XY` with upper-case hex. -/
def percentByte (b : Nat) : List Char := ['%', hexDigit (b / 16), hexDigit (b % 16)]

/-- UTF-8 byte sequence of a character (as `Nat`s below 256). -/
def utf8Bytes (c : Char) : List Nat :=
  let n := c.toNat
  if n < 128 then [n]
  else if n < 2048 then [192 + n / 64, 128 + n % 64]
  else if n < 65536 then [224 + n / 4096, 128 + (n / 64) % 64, 128 + n % 64]
  else [240 + n / 262144, 128 + (n / 4096) % 64, 128 + (n / 64) % 64, 128 + n % 64]

/-- The characters JS `encodeURIComponent` leaves unescaped:
`A-Z a-z 0-9 - _ . ! ~ * ' ( )`. -/
def isUnreservedChar (c : Char) : Bool :=
  c.isAlpha || c.isDigit || c == '-' || c == '_' || c == '.' || c == '!' ||
  c == '~' || c == '*' || c == Char.ofNat 39 || c == '(' || c == ')'

/-- JS `encodeURIComponent`: percent-encode the UTF-8 bytes of every
character outside the unreserved set. -/
def encodeURIComponent (s : String) : String :=
  ⟨s.data.flatMap (fun c =>
    if isUnreservedChar c then [c] else (utf8Bytes c).flatMap percentByte)⟩

/-- Base-36 digit as produced by JS `Number.prototype.toString(36)`
(lower-case letters). -/
def base36Digit (n : Nat) : Char :=
  if n < 10 then Char.ofNat (48 + n) else Char.ofNat (87 + n)

/-- Fuel-indexed core of base-36 printing. -/
def toBase36Core (fuel n : Nat) : List Char :=
  match fuel with
  | 0 => []
  | fuel + 1 =>
    if n < 36 then [base36Digit n]
    else toBase36Core fuel (n / 36) ++ [base36Digit (n % 36)]

/-- JS `n.toString(36)` for a natural number. -/
def jsToString36 (n : Nat) : String := ⟨toBase36Core (n + 1) n⟩

/-- A character matched by the regex class `[^\s@]`: neither whitespace
nor `@`. -/
def isEmailChar (c : Char) : Bool := !c.isWhitespace && !(c == '@')

/-- Executable test for the source's email regex
`^[^\s@]+@[^\s@]+\.[^\s@]+$` (spotlight.js line 959): a non-empty run of
`[^\s@]` characters, an `@`, and a non-empty `[^\s@]` run containing a dot
that is neither its first nor its last character. Because the character
class excludes `@`, the whole string contains exactly one `@`. -/
def emailRegexTest (s : String) : Bool :=
  let lpart := s.data.takeWhile (fun c => !(c == '@'))
  match s.data.dropWhile (fun c => !(c == '@')) with
  | [] => false
  | _ :: dom =>
    !lpart.isEmpty && lpart.all isEmailChar &&
    !dom.isEmpty && dom.all isEmailChar &&
    ((dom.drop 1).dropLast.contains '.')

/-- The conversation states of the machine, exactly the values assigned to
`this.flowState` in the source (`IDLE`, `NAME`, `ROLE`, `EMAIL`, `DESAFIO`,
`DUVIDA`). The spec's `COLLECT_NAME` … `COLLECT_MESSAGE` are the source's
`NAME` … `DUVIDA`. -/
inductive FlowState
  | IDLE
  | NAME
  | ROLE
  | EMAIL
  | DESAFIO
  | DUVIDA
deriving DecidableEq

/-- The in-memory lead record `this.leadData`. The source uses a plain JS
object whose fields appear as the flow advances; an unset field is `none`.
Field names follow the source (`nome`/`cargo`/`email`/`desafio`/`mensagem`;
the spec's name/role/email/challenge/message). -/
structure LeadData where
  nome : Option String
  cargo : Option String
  email : Option String
  desafio : Option String
  mensagem : Option String
deriving DecidableEq

/-- The empty lead record `{}`. -/
def emptyLead : LeadData := ⟨none, none, none, none, none⟩

/-- The value `JSON.stringify`-ed into local storage by
`saveToLocalStorage`: the lead data plus an ISO timestamp. The JSON string
is abstracted to its content. -/
structure Backup where
  data : LeadData
  timestamp : String
deriving DecidableEq

/-- Who a rendered chat message belongs to (`addMessage`'s `sender`). -/
inductive Sender
  | user
  | bot
deriving DecidableEq

/-- The mutable state the chatbot code touches: the two instance fields of
`LunaChatbot`, the browser's `localStorage` (an overwriting key-value
store), a count of `generateSecureProtocol` invocations (to witness how
often the generator runs), and the rendered message list. -/
structure World where
  flowState : FlowState
  leadData : LeadData
  storage : List (String × Backup)
  protoCount : Nat
  messages : List (Sender × String)
deriving DecidableEq

/-- External inputs of one `generateSecureProtocol` call: whether
`window.crypto.randomUUID` is available, the UUID it would return, and the
`Date.now()` / `Math.random().toString(36).substring(2, 6)` values of the
fallback path. -/
structure ProtoSrc where
  cryptoAvailable : Bool
  uuid : String
  nowMs : Nat
  rand : String

/-- The external collaborators: whether `window.sendContactEmail` exists,
whether the i-th send attempt resolves (`true`) or rejects (`false`), the
randomness source consumed by the n-th protocol-generator call, and
`new Date().toISOString()`. -/
structure Env where
  sendPresent : Bool
  sendOutcome : Nat → Bool
  proto : Nat → ProtoSrc
  nowISO : String

/-- `localStorage.setItem`: overwrite the value under `k`. -/
def setItem (st : List (String × Backup)) (k : String) (v : Backup) :
    List (String × Backup) :=
  (k, v) :: st.filter (fun p => !(p.1 == k))

/-- `localStorage.getItem`. -/
def getItem (st : List (String × Backup)) (k : String) : Option Backup :=
  st.lookup k

/-- `generateSecureProtocol` (spotlight.js lines 1107-1119). Preferred
path: `GLX-` plus the upper-cased first dash-separated segment of a random
UUID. Fallback: `GLX-` plus upper-cased base-36 `Date.now()` plus `-` plus
the upper-cased 4-character base-36 random suffix. -/
def generateSecureProtocol (p : ProtoSrc) : String :=
  if p.cryptoAvailable then
    "GLX-" ++ jsToUpper ⟨p.uuid.data.takeWhile (fun c => !(c == '-'))⟩
  else
    "GLX-" ++ jsToUpper (jsToString36 p.nowMs) ++ "-" ++ jsToUpper p.rand

/-- The protocol string produced by the n-th generator call under `env`. -/
def protoAt (env : Env) (n : Nat) : String := generateSecureProtocol (env.proto n)

/-- Observable result of one `sendEmailWithRetry` run: the returned
boolean, how many times `window.sendContactEmail` was invoked, and the
total backoff wait in milliseconds. -/
structure RetryResult where
  success : Bool
  calls : Nat
  waitMs : Nat
deriving DecidableEq

/-- The retry loop of `sendEmailWithRetry` (spotlight.js lines 1123-1138),
from attempt number `attempt`; `fuel` bounds the remaining iterations (the
caller passes enough for attempts `attempt..maxRetries`; exhausted fuel is
the loop falling through to the final `return false` on line 1139). On a
rejected attempt with attempts remaining it waits `2^(attempt-1) * 1000`
milliseconds and retries; on the last allowed attempt it returns `false`. -/
def retryFrom (outcome : Nat → Bool) (maxRetries : Nat) : Nat → Nat → RetryResult
  | _, 0 => ⟨false, 0, 0⟩
  | attempt, fuel + 1 =>
    if outcome attempt then ⟨true, 1, 0⟩
    else if attempt < maxRetries then
      let r := retryFrom outcome maxRetries (attempt + 1) fuel
      ⟨r.success, r.calls + 1, 2 ^ (attempt - 1) * 1000 + r.waitMs⟩
    else ⟨false, 1, 0⟩

/-- `sendEmailWithRetry(data, maxRetries)`. The lead record is handed to
the external send operation but never inspected by the retry logic; the
external operation's resolve/reject behaviour per attempt is `outcome`.
The model is total: every rejection of the collaborator is caught by the
source's `try`/`catch`, so the function only ever returns a boolean. -/
def sendEmailWithRetry (outcome : Nat → Bool) (_data : LeadData)
    (maxRetries : Nat) : RetryResult :=
  retryFrom outcome maxRetries 1 maxRetries

/-- Name prompt returned by `startLeadFlow` (template-literal text,
including its embedded newline and indentation). -/
def namePrompt : String :=
  "Certo! Vamos lá. 🚀<br><br>\n        Primeiro, qual é o seu <strong>Nome Completo</strong>?"

/-- Rejection re-prompt of the `NAME` state. -/
def nameRejectMsg : String := "Por favor, digite um nome válido."

/-- Role prompt returned on a valid name; `first` is the first word of the
stored name. -/
def roleResponse (first : String) : String :=
  "Prazer, " ++ first ++ "! 👋<br><br>\n                Qual é o seu <strong>Cargo</strong> na clínica? (Ex: Diretor, Gestor, Médico)"

/-- Email prompt returned by the `ROLE` state. -/
def emailPromptMsg : String :=
  "Perfeito. Agora, qual seu <strong>E-mail Corporativo</strong>?<br>\n                <em>(Enviaremos o protocolo de atendimento para lá)</em>"

/-- Rejection re-prompt of the `EMAIL` state. -/
def emailRejectMsg : String :=
  "Hmm, esse e-mail parece inválido. Tente novamente, por favor!"

/-- Challenge prompt returned on a valid email. -/
def desafioPromptMsg : String :=
  "Obrigada! 📧<br><br>\n                Qual o <strong>Principal Desafio</strong> da clínica hoje?<br>\n                (Ex: Faturamento, Custos, Tempo de Espera, Marketing)"

/-- Final-message prompt returned by the `DESAFIO` state. -/
def duvidaPromptMsg : String :=
  "Entendido. Para finalizar, qual sua <strong>Dúvida</strong> ou mensagem para o especialista?<br>\n                (Se não tiver, digite <strong>\"Sem dúvida\"</strong>)"

/-- Response of `handleFlow`'s `default:` branch. -/
def flowErrorMsg : String :=
  "Algo deu errado. Vamos começar de novo? Digite \x27Olá\x27."

/-- Greeting reply of `checkIntents`. -/
def greetingMsg : String :=
  "Olá! Sou a Luna. 🌙<br><br>\n            Estou aqui para ajudar sua clínica a crescer.<br>\n            Para falar com um especialista, digite <strong>\"Atendimento\"</strong> ou faça sua pergunta!"

/-- Default opt-in reply of `checkIntents`. -/
def optInMsg : String :=
  "Entendi. Para que eu possa direcionar seu caso para o especialista correto, vamos fazer um breve cadastro?<br><br>\n        Digite <strong>\"Sim\"</strong> para começar."

/-- The inline WhatsApp SVG icon shared by both terminal responses. -/
def waSvg : String :=
  "<svg class=\"w-5 h-5 group-hover:scale-110 transition-transform\" fill=\"currentColor\" viewBox=\"0 0 24 24\"><path d=\"M17.472 14.382c-.297-.149-1.758-.867-2.03-.967-.273-.099-.471-.148-.67.15-.197.297-.767.966-.94 1.164-.173.199-.347.223-.644.075-.297-.15-1.255-.463-2.39-1.475-.883-.788-1.48-1.761-1.653-2.059-.173-.297-.018-.458.13-.606.134-.133.298-.347.446-.52.149-.174.198-.298.298-.497.099-.198.05-.371-.025-.52-.075-.149-.669-1.612-.916-2.207-.242-.579-.487-.5-.669-.51-.173-.008-.371-.01-.57-.01-.198 0-.52.074-.792.372-.272.297-1.04 1.016-1.04 2.479 0 1.462 1.065 2.875 1.213 3.074.149.198 2.096 3.2 5.077 4.487.709.306 1.262.489 1.694.625.712.227 1.36.195 1.871.118.571-.085 1.758-.719 2.006-1.413.248-.694.248-1.289.173-1.413-.074-.124-.272-.198-.57-.347m-5.421 7.403h-.004a9.87 9.87 0 01-5.031-1.378l-.361-.214-3.741.982.998-3.648-.235-.374a9.86 9.86 0 01-1.51-5.26c.001-5.45 4.436-9.884 9.888-9.884 2.64 0 5.122 1.03 6.988 2.898a9.825 9.825 0 012.893 6.994c-.003 5.45-4.437 9.884-9.885 9.884m8.413-18.297A11.815 11.815 0 0012.05 0C5.495 0 .16 5.335.157 11.892c0 2.096.547 4.142 1.588 5.945L.057 24l6.305-1.654a11.882 11.882 0 005.683 1.448h.005c6.554 0 11.89-5.335 11.893-11.893a11.821 11.821 0 00-3.48-8.413z\"/></svg>"

/-- CSS classes of the WhatsApp anchor, shared by both terminal
responses. -/
def waBtnClass : String :=
  "chat-whatsapp-link w-full bg-green-500 hover:bg-green-600 text-white font-black py-3 rounded-xl shadow-lg shadow-green-500/30 transition-all flex items-center justify-center gap-2 mt-2 group"

/-- The markup of the WhatsApp button after its `href` value: the class
attribute, the SVG icon and the button label. -/
def waButtonAfter (label : String) : String :=
  "\" class=\"" ++ waBtnClass ++ "\">\n                        " ++
  waSvg ++ "\n                        " ++ label ++ "\n                    </a>"

/-- The `👉 <a href=...>` button markup embedding the deep link, shared by
the success and fallback responses up to its label. -/
def waButton (waLink label : String) : String :=
  "👉 <a href=\"" ++ waLink ++ waButtonAfter label

/-- The WhatsApp prefill text of the success branch (spotlight.js line
1005), built from the lead's name, role, challenge and the protocol. -/
def waTextOk (d : LeadData) (protocol : String) : String :=
  "Olá! Sou " ++ jsStr d.nome ++ " (" ++ jsStr d.cargo ++ ").\nMeu desafio é: " ++
  jsStr d.desafio ++ ".\nProtocolo: " ++ protocol

/-- The WhatsApp prefill text of the failure branch (line 1024): the
success text plus an error note. -/
def waTextFail (d : LeadData) (protocol : String) : String :=
  waTextOk d protocol ++ "\n\n(Enviado via WhatsApp pois o formulário apresentou erro)"

/-- The WhatsApp deep link: fixed number plus the URL-encoded text. -/
def waLinkOf (text : String) : String :=
  "https://wa.me/5511944223257?text=" ++ encodeURIComponent text

/-- The success confirmation message (lines 1008-1014). -/
def successResponse (protocol waLink : String) : String :=
  "✅ <strong>Recebido com Sucesso!</strong><br><br>\n                    📧 Protocolo <strong>" ++
  protocol ++ "</strong> enviado para seu e-mail.<br><br>\n                    Para agilizar seu atendimento, clique abaixo e envie esses dados direto para nosso WhatsApp:<br><br>\n                    " ++
  waButton waLink "Enviar via WhatsApp"

/-- The fixed text of the fallback message before the WhatsApp button. -/
def failIntro : String :=
  "⚠️ <strong>Ops! Erro ao enviar e-mail.</strong><br><br>\n                    Mas não se preocupe! Seus dados foram salvos localmente.<br><br>\n                    Por favor, <strong>clique no botão abaixo</strong> para enviar seus dados via WhatsApp:<br><br>\n                    "

/-- The degraded fallback message of the catch branch (lines 1027-1033). -/
def failResponse (waLink : String) : String :=
  failIntro ++ waButton waLink "Enviar via WhatsApp (URGENTE)"

/-- The `catch` block of the `DUVIDA` case (lines 1016-1034): persist the
lead plus timestamp under the fixed key via `saveToLocalStorage` (lines
1143-1153), generate a second protocol, and return the fallback message
with the deep link. The flow state is NOT reset here (the source's catch
block never assigns `this.flowState`). -/
def duvidaCatch (env : Env) (w : World) : World × String :=
  let w1 : World :=
    { w with storage := setItem w.storage "glx_lead_backup" ⟨w.leadData, env.nowISO⟩ }
  let protocol := protoAt env w1.protoCount
  let w2 : World := { w1 with protoCount := w1.protoCount + 1 }
  (w2, failResponse (waLinkOf (waTextFail w2.leadData protocol)))

/-- The `DUVIDA` case of `handleFlow` after `mensagem` has been stored
(lines 976-1034): generate a protocol, and if the send collaborator exists
run `sendEmailWithRetry(leadData, 3)`; on success reset the state to
`IDLE` and return the confirmation; a failed retry run or an absent
collaborator throws into the shared catch block. -/
def handleDuvida (env : Env) (w : World) : World × String :=
  let protocol := protoAt env w.protoCount
  let w1 : World := { w with protoCount := w.protoCount + 1 }
  if env.sendPresent then
    if (sendEmailWithRetry env.sendOutcome w.leadData 3).success then
      ({ w1 with flowState := FlowState.IDLE },
       successResponse protocol (waLinkOf (waTextOk w.leadData protocol)))
    else duvidaCatch env w1
  else duvidaCatch env w1

/-- `handleFlow` (spotlight.js lines 941-1040): one step of the
conversation state machine on a user input. The `IDLE` case is the
source's `default:` branch (unreachable through `sendMessage`, which
dispatches `IDLE` to `checkIntents`). -/
def handleFlow (env : Env) (w : World) (input : String) : World × String :=
  match w.flowState with
  | FlowState.NAME =>
    if jsLength (jsTrim input) < 3 then (w, nameRejectMsg)
    else
      ({ w with leadData := { w.leadData with nome := some (jsTrim input) },
                flowState := FlowState.ROLE },
       roleResponse (firstWord (jsTrim input)))
  | FlowState.ROLE =>
    ({ w with leadData := { w.leadData with cargo := some (jsTrim input) },
              flowState := FlowState.EMAIL },
     emailPromptMsg)
  | FlowState.EMAIL =>
    if !(emailRegexTest (jsTrim input)) then (w, emailRejectMsg)
    else
      ({ w with leadData := { w.leadData with email := some (jsTrim input) },
                flowState := FlowState.DESAFIO },
       desafioPromptMsg)
  | FlowState.DESAFIO =>
    ({ w with leadData := { w.leadData with desafio := some (jsTrim input) },
              flowState := FlowState.DUVIDA },
     duvidaPromptMsg)
  | FlowState.DUVIDA =>
    handleDuvida env { w with leadData := { w.leadData with mensagem := some (jsTrim input) } }
  | FlowState.IDLE => ({ w with flowState := FlowState.IDLE }, flowErrorMsg)

/-- The fixed trigger keyword list of `checkIntents` (lines 903-907). -/
def triggers : List String :=
  ["dúvida", "duvida", "ajuda", "suporte", "erro", "problema",
   "fechar", "contratar", "comprar", "preço", "preco",
   "valor", "orçamento", "orcamento", "whatsapp", "zap", "quero"]

/-- `startLeadFlow` (lines 925-938): enter the collection flow, reset the
lead record, return the name prompt. -/
def startLeadFlow (w : World) : World × String :=
  ({ w with flowState := FlowState.NAME, leadData := emptyLead }, namePrompt)

/-- `checkIntents` (lines 899-922): lower-case the input; any trigger
keyword occurring as a substring starts the lead flow; otherwise a
greeting keyword yields the greeting reply, else the opt-in prompt. -/
def checkIntents (w : World) (message : String) : World × String :=
  if triggers.any (fun t => jsIncludes (jsToLower message) t) then
    startLeadFlow w
  else if jsIncludes (jsToLower message) "olá" || jsIncludes (jsToLower message) "oi" ||
          jsIncludes (jsToLower message) "bom" then
    (w, greetingMsg)
  else (w, optInMsg)

/-- The dispatch inside `sendMessage` (lines 887-892): a non-`IDLE` state
goes to `handleFlow`, `IDLE` goes to `checkIntents`. -/
def processMessage (env : Env) (w : World) (message : String) : World × String :=
  match w.flowState with
  | FlowState.IDLE => checkIntents w message
  | _ => handleFlow env w message

/-- `sendMessage` (lines 875-896): trim the input; an empty result returns
before anything happens; otherwise record the user message, process it,
and record the bot response. -/
def sendMessage (env : Env) (w : World) (raw : String) : World :=
  if jsTrim raw = "" then w
  else
    let w1 : World := { w with messages := w.messages ++ [(Sender.user, jsTrim raw)] }
    let r := processMessage env w1 (jsTrim raw)
    { r.1 with messages := r.1.messages ++ [(Sender.bot, r.2)] }

/-- A complete valid traversal of the flow: a trigger message handled by
`checkIntents` from `IDLE`, then the five collection inputs handled by
`handleFlow` (name, role, email, challenge, final message). -/
def fullTraversal (env : Env) (w0 : World) (t n r e c m : String) : World × String :=
  handleFlow env
    (handleFlow env
      (handleFlow env
        (handleFlow env
          (handleFlow env (checkIntents w0 t).1 n).1 r).1 e).1 c).1 m

/-- A protocol randomness source with `crypto.randomUUID` available. -/
def protoSrcA : ProtoSrc :=
  { cryptoAvailable := true, uuid := "1a2b3c4d-1111-4abc-8def-123456789abc",
    nowMs := 1700000000000, rand := "k9z2" }

/-- Environment: collaborator present, every attempt resolves. -/
def envOk : Env :=
  { sendPresent := true, sendOutcome := fun _ => true, proto := fun _ => protoSrcA,
    nowISO := "2026-01-01T00:00:00.000Z" }

/-- Environment: collaborator present, every attempt rejects. -/
def envFailing : Env :=
  { sendPresent := true, sendOutcome := fun _ => false, proto := fun _ => protoSrcA,
    nowISO := "2026-01-01T00:00:00.000Z" }

/-- Environment: `window.sendContactEmail` absent (configuration error). -/
def envAbsent : Env :=
  { sendPresent := false, sendOutcome := fun _ => false, proto := fun _ => protoSrcA,
    nowISO := "2026-01-01T00:00:00.000Z" }

/-- A fresh idle world. -/
def w0c : World :=
  { flowState := FlowState.IDLE, leadData := emptyLead, storage := [],
    protoCount := 0, messages := [] }

/-- A world waiting for the name. -/
def wNAMEc : World := { w0c with flowState := FlowState.NAME }

/-- A world waiting for the email, with name and role collected. -/
def wEMAILc : World :=
  { flowState := FlowState.EMAIL,
    leadData := { nome := some "Maria Silva", cargo := some "Diretora",
                  email := none, desafio := none, mensagem := none },
    storage := [], protoCount := 0, messages := [] }

/-- A world at the terminal collection state, with the first four fields
collected and a stale backup already in storage (so the overwrite is
exercised). -/
def wDUVIDAc : World :=
  { flowState := FlowState.DUVIDA,
    leadData := { nome := some "Maria Silva", cargo := some "Diretora",
                  email := some "a@b.co", desafio := some "Custos", mensagem := none },
    storage := [("glx_lead_backup", ⟨emptyLead, "2025-12-31T00:00:00.000Z"⟩)],
    protoCount := 0, messages := [] }

lemma str_data_append (a b : String) : (a ++ b).data = a.data ++ b.data := by
  obtain ⟨la⟩ := a
  obtain ⟨lb⟩ := b
  rfl

lemma str_append_assoc (a b c : String) : a ++ b ++ c = a ++ (b ++ c) := by
  obtain ⟨la⟩ := a
  obtain ⟨lb⟩ := b
  obtain ⟨lc⟩ := c
  show String.mk (la ++ lb ++ lc) = String.mk (la ++ (lb ++ lc))
  rw [List.append_assoc]

lemma glx_append_ne_empty (s : String) : ("GLX-" ++ s) ≠ "" := by
  intro h
  have hd := congrArg String.data h
  rw [str_data_append] at hd
  have hd2 : ('G' :: 'L' :: 'X' :: '-' :: s.data) = ([] : List Char) := hd
  exact List.noConfusion hd2

lemma dropWhile_nil_of_all {p : Char → Bool} :
    ∀ l : List Char, l.all p = true → l.dropWhile p = [] := by
  intro l h
  induction l with
  | nil => rfl
  | cons c cs ih =>
    rw [List.all_cons, Bool.and_eq_true] at h
    rw [List.dropWhile_cons, h.1]
    exact ih h.2

lemma jsTrim_of_all_whitespace (s : String)
    (h : s.data.all Char.isWhitespace = true) : jsTrim s = "" := by
  unfold jsTrim
  rw [dropWhile_nil_of_all _ h]
  rfl

lemma retryFrom_succ_eq (outcome : Nat → Bool) (maxR : Nat) :
    ∀ (j a fuel : Nat), (∀ i, a ≤ i → i < a + j → outcome i = false) →
      outcome (a + j) = true → a + j ≤ maxR → j < fuel →
      retryFrom outcome maxR a fuel =
        ⟨true, j + 1, ∑ i in Finset.Ico a (a + j), 2 ^ (i - 1) * 1000⟩ := by
  intro j
  induction j with
  | zero =>
    intro a fuel hf hs hle hfuel
    match fuel, hfuel with
    | fuel + 1, _ =>
      rw [Nat.add_zero] at hs
      simp [retryFrom, hs]
  | succ j ih =>
    intro a fuel hf hs hle hfuel
    match fuel, hfuel with
    | fuel + 1, hfuel =>
      have hfa : outcome a = false := hf a le_rfl (by omega)
      have haM : a < maxR := by omega
      have harg : a + 1 + j = a + (j + 1) := by omega
      have ihr := ih (a + 1) fuel (fun i h1 h2 => hf i (by omega) (by omega))
        (by rw [harg]; exact hs) (by omega) (by omega)
      simp only [retryFrom, hfa, Bool.false_eq_true, if_false, haM, if_true, ihr]
      have hsum : (∑ i in Finset.Ico a (a + (j + 1)), 2 ^ (i - 1) * 1000) =
          2 ^ (a - 1) * 1000 + ∑ i in Finset.Ico (a + 1) (a + 1 + j), 2 ^ (i - 1) * 1000 := by
        rw [harg, Finset.sum_eq_sum_Ico_succ_bot (by omega : a < a + (j + 1))]
      rw [hsum]

lemma retryFrom_allfail (outcome : Nat → Bool) (hall : ∀ i, outcome i = false)
    (maxR : Nat) :
    ∀ (fuel a : Nat), a + fuel = maxR + 1 →
      (retryFrom outcome maxR a fuel).success = false ∧
      (retryFrom outcome maxR a fuel).calls = fuel := by
  intro fuel
  induction fuel with
  | zero => intro a _; exact ⟨rfl, rfl⟩
  | succ f ih =>
    intro a h
    by_cases hlt : a < maxR
    · have hr := ih (a + 1) (by omega)
      simp only [retryFrom, hall a, Bool.false_eq_true, if_false, hlt, if_true]
      exact ⟨hr.1, by rw [hr.2]⟩
    · have hf0 : f = 0 := by omega
      subst hf0
      simp [retryFrom, hall a, hlt]

/-- C2: if the external send operation rejects on exactly the first `k`
calls (`k < max`) and resolves on call `k+1`, then `sendEmailWithRetry`
invokes it exactly `k+1` times, returns `true`, and the total backoff wait
is `∑ i in 1..k, 2^(i-1)` seconds (here in milliseconds, hence the factor
1000); waits occur only after a failed attempt that is not the last
allowed one. -/
theorem retry_k_failures_then_success (outcome : Nat → Bool) (k maxR : Nat)
    (data : LeadData) (hk : k < maxR)
    (hfail : ∀ i, 1 ≤ i → i ≤ k → outcome i = false)
    (hsucc : outcome (k + 1) = true) :
    sendEmailWithRetry outcome data maxR =
      ⟨true, k + 1, 1000 * ∑ i in Finset.Icc 1 k, 2 ^ (i - 1)⟩ := by
  unfold sendEmailWithRetry
  have h1k : 1 + k = k + 1 := by omega
  rw [retryFrom_succ_eq outcome maxR k 1 maxR
      (fun i h1 h2 => hfail i h1 (by omega))
      (by rw [h1k]; exact hsucc) (by omega) (by omega)]
  have hsum : (∑ i in Finset.Ico 1 (1 + k), 2 ^ (i - 1) * 1000) =
      1000 * ∑ i in Finset.Icc 1 k, 2 ^ (i - 1) := by
    rw [h1k, Nat.Ico_succ_right, Finset.mul_sum]
    exact Finset.sum_congr rfl (fun i _ => by ring)
  rw [hsum]

/-- C2 witness: with `max = 3` and a collaborator that rejects attempts 1
and 2 and resolves attempt 3 (`k = 2`), the pipeline returns success after
3 calls with 1000 + 2000 = 3000 ms of backoff. -/
theorem retry_k_failures_then_success_witness :
    (2 < 3) ∧ (∀ i, 1 ≤ i → i ≤ 2 → (fun j => decide (3 ≤ j)) i = false) ∧
      ((fun j => decide (3 ≤ j)) (2 + 1) = true) ∧
      sendEmailWithRetry (fun j => decide (3 ≤ j)) emptyLead 3 =
        ⟨true, 2 + 1, 1000 * ∑ i in Finset.Icc 1 2, 2 ^ (i - 1)⟩ :=
  ⟨by omega, fun i _ h2 => by simp; omega, by decide,
   retry_k_failures_then_success (fun j => decide (3 ≤ j)) 2 3 emptyLead
     (by omega) (fun i _ h2 => by simp; omega) (by decide)⟩

/-- C3: if the external send operation rejects on every call,
`sendEmailWithRetry` invokes it exactly `max` times and returns `false`.
The model is total, reflecting that every rejection is absorbed by the
source's internal `try`/`catch` and no exception escapes to the caller. -/
theorem retry_all_failures (outcome : Nat → Bool) (maxR : Nat) (data : LeadData)
    (hall : ∀ i, outcome i = false) :
    (sendEmailWithRetry outcome data maxR).success = false ∧
    (sendEmailWithRetry outcome data maxR).calls = maxR := by
  unfold sendEmailWithRetry
  exact retryFrom_allfail outcome hall maxR maxR 1 (by omega)

/-- C3 witness: an always-rejecting collaborator with the default
`maxRetries = 3` yields failure after exactly 3 calls. -/
theorem retry_all_failures_witness :
    (∀ i : Nat, (fun _ => false) i = false) ∧
      (sendEmailWithRetry (fun _ => false) emptyLead 3).success = false ∧
      (sendEmailWithRetry (fun _ => false) emptyLead 3).calls = 3 :=
  ⟨fun _ => rfl, retry_all_failures (fun _ => false) 3 emptyLead (fun _ => rfl)⟩

lemma checkIntents_trigger_eq (w : World) (msg : String)
    (ht : triggers.any (fun t => jsIncludes (jsToLower msg) t) = true) :
    checkIntents w msg =
      ({ w with flowState := FlowState.NAME, leadData := emptyLead }, namePrompt) := by
  unfold checkIntents
  rw [ht]
  rfl

lemma handleFlow_NAME_ok_eq (env : Env) (w : World) (input : String)
    (hst : w.flowState = FlowState.NAME) (hn : 3 ≤ jsLength (jsTrim input)) :
    handleFlow env w input =
      ({ w with leadData := { w.leadData with nome := some (jsTrim input) },
                flowState := FlowState.ROLE },
       roleResponse (firstWord (jsTrim input))) := by
  obtain ⟨fs, ld, st, pc, ms⟩ := w
  have hfs : fs = FlowState.NAME := hst
  subst hfs
  have h3 : ¬ (jsLength (jsTrim input) < 3) := by omega
  simp [handleFlow, h3]

lemma handleFlow_ROLE_eq (env : Env) (w : World) (input : String)
    (hst : w.flowState = FlowState.ROLE) :
    handleFlow env w input =
      ({ w with leadData := { w.leadData with cargo := some (jsTrim input) },
                flowState := FlowState.EMAIL },
       emailPromptMsg) := by
  obtain ⟨fs, ld, st, pc, ms⟩ := w
  have hfs : fs = FlowState.ROLE := hst
  subst hfs
  rfl

lemma handleFlow_EMAIL_ok_eq (env : Env) (w : World) (input : String)
    (hst : w.flowState = FlowState.EMAIL) (he : emailRegexTest (jsTrim input) = true) :
    handleFlow env w input =
      ({ w with leadData := { w.leadData with email := some (jsTrim input) },
                flowState := FlowState.DESAFIO },
       desafioPromptMsg) := by
  obtain ⟨fs, ld, st, pc, ms⟩ := w
  have hfs : fs = FlowState.EMAIL := hst
  subst hfs
  simp [handleFlow, he]

lemma handleFlow_DESAFIO_eq (env : Env) (w : World) (input : String)
    (hst : w.flowState = FlowState.DESAFIO) :
    handleFlow env w input =
      ({ w with leadData := { w.leadData with desafio := some (jsTrim input) },
                flowState := FlowState.DUVIDA },
       duvidaPromptMsg) := by
  obtain ⟨fs, ld, st, pc, ms⟩ := w
  have hfs : fs = FlowState.DESAFIO := hst
  subst hfs
  rfl

lemma handleFlow_DUVIDA_success_eq (env : Env) (w : World) (input : String)
    (hst : w.flowState = FlowState.DUVIDA) (hp : env.sendPresent = true)
    (hs : (sendEmailWithRetry env.sendOutcome
            { w.leadData with mensagem := some (jsTrim input) } 3).success = true) :
    handleFlow env w input =
      ({ w with leadData := { w.leadData with mensagem := some (jsTrim input) },
                protoCount := w.protoCount + 1, flowState := FlowState.IDLE },
       successResponse (protoAt env w.protoCount)
         (waLinkOf (waTextOk { w.leadData with mensagem := some (jsTrim input) }
           (protoAt env w.protoCount)))) := by
  obtain ⟨fs, ld, st, pc, ms⟩ := w
  have hfs : fs = FlowState.DUVIDA := hst
  subst hfs
  simp only [handleFlow, handleDuvida]
  rw [hp]
  simp only [if_true]
  rw [hs]
  rfl

lemma handleFlow_DUVIDA_fail_eq (env : Env) (w : World) (input : String)
    (hst : w.flowState = FlowState.DUVIDA)
    (hfail : env.sendPresent = false ∨
      (sendEmailWithRetry env.sendOutcome
        { w.leadData with mensagem := some (jsTrim input) } 3).success = false) :
    handleFlow env w input =
      ({ w with leadData := { w.leadData with mensagem := some (jsTrim input) },
                protoCount := w.protoCount + 2,
                storage := setItem w.storage "glx_lead_backup"
                  ⟨{ w.leadData with mensagem := some (jsTrim input) }, env.nowISO⟩ },
       failResponse (waLinkOf (waTextFail
         { w.leadData with mensagem := some (jsTrim input) }
         (protoAt env (w.protoCount + 1))))) := by
  obtain ⟨fs, ld, st, pc, ms⟩ := w
  have hfs : fs = FlowState.DUVIDA := hst
  subst hfs
  simp only [handleFlow, handleDuvida]
  rcases hfail with hp | hs
  · rw [hp]
    rfl
  · cases hp : env.sendPresent
    · rfl
    · simp only [if_true]
      rw [hs]
      rfl

lemma getItem_setItem_self (st : List (String × Backup)) (k : String) (v : Backup) :
    getItem (setItem st k v) k = some v := by
  simp [getItem, setItem, List.lookup]

/-- C6: any input whose lower-cased text contains a trigger keyword as a
substring, received in `IDLE` (where `sendMessage` dispatches to
`checkIntents`), resets the lead record to empty, moves the machine to the
`NAME` collection state, and returns the name prompt. -/
theorem trigger_starts_flow (w : World) (msg : String)
    (_hst : w.flowState = FlowState.IDLE)
    (ht : triggers.any (fun t => jsIncludes (jsToLower msg) t) = true) :
    checkIntents w msg =
      ({ w with flowState := FlowState.NAME, leadData := emptyLead }, namePrompt) :=
  checkIntents_trigger_eq w msg ht

/-- C6 witness: the input "quero orçamento" (containing the triggers
"quero" and "orçamento") starts the flow from a fresh idle world. -/
theorem trigger_starts_flow_witness :
    w0c.flowState = FlowState.IDLE ∧
      (triggers.any (fun t => jsIncludes (jsToLower "quero orçamento") t) = true) ∧
      checkIntents w0c "quero orçamento" =
        ({ w0c with flowState := FlowState.NAME, leadData := emptyLead }, namePrompt) :=
  ⟨rfl, by decide, trigger_starts_flow w0c "quero orçamento" rfl (by decide)⟩

/-- C7: in the `EMAIL` state, a trimmed input matching the email regex is
stored and the machine advances to the challenge state; a non-matching
input leaves the whole world (state and lead record) unchanged and returns
the rejection re-prompt. -/
theorem email_validation_step (env : Env) (w : World) (input : String)
    (hst : w.flowState = FlowState.EMAIL) :
    (emailRegexTest (jsTrim input) = true →
      handleFlow env w input =
        ({ w with leadData := { w.leadData with email := some (jsTrim input) },
                  flowState := FlowState.DESAFIO },
         desafioPromptMsg)) ∧
    (emailRegexTest (jsTrim input) = false →
      handleFlow env w input = (w, emailRejectMsg)) := by
  constructor
  · intro he
    exact handleFlow_EMAIL_ok_eq env w input hst he
  · intro he
    obtain ⟨fs, ld, st, pc, ms⟩ := w
    have hfs : fs = FlowState.EMAIL := hst
    subst hfs
    simp [handleFlow, he]

/-- C7 witness: "a@b.co" advances to the challenge state; "not-an-email"
leaves the world unchanged with the rejection message. -/
theorem email_validation_step_witness :
    wEMAILc.flowState = FlowState.EMAIL ∧
      handleFlow envOk wEMAILc "a@b.co" =
        ({ wEMAILc with
            leadData := { wEMAILc.leadData with email := some (jsTrim "a@b.co") },
            flowState := FlowState.DESAFIO },
         desafioPromptMsg) ∧
      handleFlow envOk wEMAILc "not-an-email" = (wEMAILc, emailRejectMsg) :=
  ⟨rfl,
   (email_validation_step envOk wEMAILc "a@b.co" rfl).1 (by decide),
   (email_validation_step envOk wEMAILc "not-an-email" rfl).2 (by decide)⟩

/-- C8: in the `NAME` state, an input whose trimmed length (JS UTF-16
`.length`) is below 3 leaves the whole world — state and lead record —
unchanged and returns the rejection re-prompt. -/
theorem short_name_reprompt (env : Env) (w : World) (input : String)
    (hst : w.flowState = FlowState.NAME)
    (hlen : jsLength (jsTrim input) < 3) :
    handleFlow env w input = (w, nameRejectMsg) := by
  obtain ⟨fs, ld, st, pc, ms⟩ := w
  have hfs : fs = FlowState.NAME := hst
  subst hfs
  simp [handleFlow, hlen]

/-- C8 witness: the 2-character name "Jo" is rejected in the `NAME`
state. -/
theorem short_name_reprompt_witness :
    wNAMEc.flowState = FlowState.NAME ∧ jsLength (jsTrim "Jo") < 3 ∧
      handleFlow envOk wNAMEc "Jo" = (wNAMEc, nameRejectMsg) :=
  ⟨rfl, by decide, short_name_reprompt envOk wNAMEc "Jo" rfl (by decide)⟩

/-- C10: an input that is empty or all whitespace is a complete no-op at
`sendMessage`: the early return fires before any message is recorded, any
state transition, or any response, so the world is returned unchanged. -/
theorem blank_input_noop (env : Env) (w : World) (raw : String)
    (h : raw.data.all Char.isWhitespace = true) :
    sendMessage env w raw = w := by
  have ht : jsTrim raw = "" := jsTrim_of_all_whitespace raw h
  simp [sendMessage, ht]

/-- C10 witness: a three-space input is dropped without any effect, even
mid-flow. -/
theorem blank_input_noop_witness :
    ("   ".data.all Char.isWhitespace = true) ∧
      sendMessage envOk wEMAILc "   " = wEMAILc :=
  ⟨by decide, blank_input_noop envOk wEMAILc "   " (by decide)⟩

lemma failResponse_contains_link (link : String) :
    ∃ a b, failResponse link = a ++ link ++ b := by
  refine ⟨failIntro ++ "👉 <a href=\"", waButtonAfter "Enviar via WhatsApp (URGENTE)", ?_⟩
  simp only [failResponse, waButton, str_append_assoc]

/-- C9: both paths of `generateSecureProtocol` — the crypto path (tag plus
upper-cased first UUID segment) and the fallback path (tag plus upper-cased
base-36 timestamp plus upper-cased base-36 random suffix) — return a token
that starts with the fixed tag "GLX-" and is in particular non-empty. -/
theorem protocol_tag_and_nonempty (p : ProtoSrc) :
    (∃ rest, generateSecureProtocol p = "GLX-" ++ rest) ∧
      generateSecureProtocol p ≠ "" := by
  have hex : ∃ rest, generateSecureProtocol p = "GLX-" ++ rest := by
    unfold generateSecureProtocol
    cases hc : p.cryptoAvailable
    · refine ⟨jsToUpper (jsToString36 p.nowMs) ++ ("-" ++ jsToUpper p.rand), ?_⟩
      simp only [Bool.false_eq_true, if_false, str_append_assoc]
    · exact ⟨jsToUpper ⟨p.uuid.data.takeWhile (fun c => !(c == '-'))⟩, by simp⟩
  obtain ⟨rest, hr⟩ := hex
  exact ⟨⟨rest, hr⟩, hr ▸ glx_append_ne_empty rest⟩

/-- C1 counterexample, refuting the claim that a complete valid traversal
always ends in `IDLE` with an empty LeadRecord: with an always-succeeding
send collaborator, the traversal triggered by "quero" ends in `IDLE` but
the in-memory LeadRecord still holds all five collected fields (the source
never clears `this.leadData` on completion); and with an always-failing
collaborator the final state is `DUVIDA`, not `IDLE` (the catch block
never resets `this.flowState`). -/
theorem full_traversal_counterexample :
    (fullTraversal envOk w0c "quero" "Maria Silva" "Diretora" "a@b.co" "Custos" "ok").1.flowState
        = FlowState.IDLE ∧
    (fullTraversal envOk w0c "quero" "Maria Silva" "Diretora" "a@b.co" "Custos" "ok").1.leadData
        ≠ emptyLead ∧
    (fullTraversal envFailing w0c "quero" "Maria Silva" "Diretora" "a@b.co" "Custos" "ok").1.flowState
        = FlowState.DUVIDA := by
  refine ⟨by decide, by decide, by decide⟩

/-- C1 (amended): after a complete valid traversal the LeadRecord holds
all five collected fields — it is never cleared, so it is not empty; in
the delivery-success branch the final state is `IDLE`, while in the
delivery-failure branch (retries exhausted or collaborator absent) the
state remains `DUVIDA`; only a later `startLeadFlow` resets the record. -/
theorem full_traversal_amended (env : Env) (w0 : World) (t n r e c m : String)
    (_h0 : w0.flowState = FlowState.IDLE)
    (ht : triggers.any (fun s => jsIncludes (jsToLower t) s) = true)
    (hn : 3 ≤ jsLength (jsTrim n))
    (he : emailRegexTest (jsTrim e) = true) :
    ((fullTraversal env w0 t n r e c m).1.leadData =
      ⟨some (jsTrim n), some (jsTrim r), some (jsTrim e), some (jsTrim c), some (jsTrim m)⟩) ∧
    ((fullTraversal env w0 t n r e c m).1.leadData ≠ emptyLead) ∧
    (env.sendPresent = true →
      (sendEmailWithRetry env.sendOutcome
        ⟨some (jsTrim n), some (jsTrim r), some (jsTrim e), some (jsTrim c), some (jsTrim m)⟩
        3).success = true →
      (fullTraversal env w0 t n r e c m).1.flowState = FlowState.IDLE) ∧
    ((env.sendPresent = false ∨
      (sendEmailWithRetry env.sendOutcome
        ⟨some (jsTrim n), some (jsTrim r), some (jsTrim e), some (jsTrim c), some (jsTrim m)⟩
        3).success = false) →
      (fullTraversal env w0 t n r e c m).1.flowState = FlowState.DUVIDA) := by
  have hT : fullTraversal env w0 t n r e c m =
      handleFlow env
        ({ w0 with flowState := FlowState.DUVIDA,
                   leadData := ⟨some (jsTrim n), some (jsTrim r), some (jsTrim e),
                                some (jsTrim c), none⟩ }) m := by
    unfold fullTraversal
    rw [checkIntents_trigger_eq w0 t ht]
    rw [handleFlow_NAME_ok_eq env _ n rfl hn]
    rw [handleFlow_ROLE_eq env _ r rfl]
    rw [handleFlow_EMAIL_ok_eq env _ e rfl he]
    rw [handleFlow_DESAFIO_eq env _ c rfl]
    rfl
  have hld : (fullTraversal env w0 t n r e c m).1.leadData =
      ⟨some (jsTrim n), some (jsTrim r), some (jsTrim e), some (jsTrim c), some (jsTrim m)⟩ := by
    rw [hT]
    by_cases hp : env.sendPresent = true
    · by_cases hs : (sendEmailWithRetry env.sendOutcome
          ⟨some (jsTrim n), some (jsTrim r), some (jsTrim e), some (jsTrim c), some (jsTrim m)⟩
          3).success = true
      · rw [handleFlow_DUVIDA_success_eq env _ m rfl hp hs]
      · rw [handleFlow_DUVIDA_fail_eq env _ m rfl
          (Or.inr (by simpa using hs))]
    · rw [handleFlow_DUVIDA_fail_eq env _ m rfl
        (Or.inl (by simpa using hp))]
  refine ⟨hld, ?_, ?_, ?_⟩
  · rw [hld]
    simp [emptyLead]
  · intro hp hs
    rw [hT, handleFlow_DUVIDA_success_eq env _ m rfl hp hs]
  · intro hor
    rw [hT, handleFlow_DUVIDA_fail_eq env _ m rfl hor]

/-- C1 (amended) witness: the concrete traversal "quero" / "Maria Silva" /
"Diretora" / "a@b.co" / "Custos" / "ok" under the always-succeeding
environment. -/
theorem full_traversal_amended_witness :
    w0c.flowState = FlowState.IDLE ∧
    (triggers.any (fun s => jsIncludes (jsToLower "quero") s) = true) ∧
    3 ≤ jsLength (jsTrim "Maria Silva") ∧
    emailRegexTest (jsTrim "a@b.co") = true ∧
    (((fullTraversal envOk w0c "quero" "Maria Silva" "Diretora" "a@b.co" "Custos" "ok").1.leadData =
      ⟨some (jsTrim "Maria Silva"), some (jsTrim "Diretora"), some (jsTrim "a@b.co"),
       some (jsTrim "Custos"), some (jsTrim "ok")⟩) ∧
    ((fullTraversal envOk w0c "quero" "Maria Silva" "Diretora" "a@b.co" "Custos" "ok").1.leadData
        ≠ emptyLead) ∧
    (envOk.sendPresent = true →
      (sendEmailWithRetry envOk.sendOutcome
        ⟨some (jsTrim "Maria Silva"), some (jsTrim "Diretora"), some (jsTrim "a@b.co"),
         some (jsTrim "Custos"), some (jsTrim "ok")⟩ 3).success = true →
      (fullTraversal envOk w0c "quero" "Maria Silva" "Diretora" "a@b.co" "Custos" "ok").1.flowState
          = FlowState.IDLE) ∧
    ((envOk.sendPresent = false ∨
      (sendEmailWithRetry envOk.sendOutcome
        ⟨some (jsTrim "Maria Silva"), some (jsTrim "Diretora"), some (jsTrim "a@b.co"),
         some (jsTrim "Custos"), some (jsTrim "ok")⟩ 3).success = false) →
      (fullTraversal envOk w0c "quero" "Maria Silva" "Diretora" "a@b.co" "Custos" "ok").1.flowState
          = FlowState.DUVIDA)) :=
  ⟨rfl, by decide, by decide, by decide,
   full_traversal_amended envOk w0c "quero" "Maria Silva" "Diretora" "a@b.co" "Custos" "ok"
     rfl (by decide) (by decide) (by decide)⟩

/-- C4: when terminal delivery fails — the collaborator is absent, or
present but failing all retries — the completed LeadRecord plus the
timestamp is stored under the single fixed key "glx_lead_backup"
(overwriting whatever was there: the equation holds for every prior
storage contents `w.storage`), the response still embeds the full WhatsApp
deep link, and the two failure causes produce literally identical final
worlds and responses (given the same randomness and clock). -/
theorem delivery_failure_fallback (o1 o2 : Nat → Bool) (pr : Nat → ProtoSrc)
    (ts : String) (w : World) (input : String)
    (hst : w.flowState = FlowState.DUVIDA)
    (hfail : (sendEmailWithRetry o2
      { w.leadData with mensagem := some (jsTrim input) } 3).success = false) :
    handleFlow ⟨false, o1, pr, ts⟩ w input = handleFlow ⟨true, o2, pr, ts⟩ w input ∧
    getItem (handleFlow ⟨true, o2, pr, ts⟩ w input).1.storage "glx_lead_backup" =
      some ⟨{ w.leadData with mensagem := some (jsTrim input) }, ts⟩ ∧
    (∃ a b, (handleFlow ⟨true, o2, pr, ts⟩ w input).2 =
      a ++ waLinkOf (waTextFail { w.leadData with mensagem := some (jsTrim input) }
            (generateSecureProtocol (pr (w.protoCount + 1)))) ++ b) := by
  have h1 := handleFlow_DUVIDA_fail_eq ⟨false, o1, pr, ts⟩ w input hst (Or.inl rfl)
  have h2 := handleFlow_DUVIDA_fail_eq ⟨true, o2, pr, ts⟩ w input hst (Or.inr hfail)
  refine ⟨?_, ?_, ?_⟩
  · rw [h1, h2]
    rfl
  · rw [h2]
    exact getItem_setItem_self _ _ _
  · rw [h2]
    exact failResponse_contains_link _

/-- C4 witness: the two concrete failure environments (absent collaborator
vs. three rejections) on the concrete terminal world `wDUVIDAc`, which
already holds a stale backup that gets overwritten. -/
theorem delivery_failure_fallback_witness :
    wDUVIDAc.flowState = FlowState.DUVIDA ∧
    ((sendEmailWithRetry (fun _ => false)
      { wDUVIDAc.leadData with mensagem := some (jsTrim "ok") } 3).success = false) ∧
    (handleFlow ⟨false, fun _ => true, fun _ => protoSrcA, "2026-01-01T00:00:00.000Z"⟩
        wDUVIDAc "ok" =
      handleFlow ⟨true, fun _ => false, fun _ => protoSrcA, "2026-01-01T00:00:00.000Z"⟩
        wDUVIDAc "ok" ∧
    getItem (handleFlow ⟨true, fun _ => false, fun _ => protoSrcA, "2026-01-01T00:00:00.000Z"⟩
        wDUVIDAc "ok").1.storage "glx_lead_backup" =
      some ⟨{ wDUVIDAc.leadData with mensagem := some (jsTrim "ok") },
            "2026-01-01T00:00:00.000Z"⟩ ∧
    (∃ a b, (handleFlow ⟨true, fun _ => false, fun _ => protoSrcA, "2026-01-01T00:00:00.000Z"⟩
        wDUVIDAc "ok").2 =
      a ++ waLinkOf (waTextFail { wDUVIDAc.leadData with mensagem := some (jsTrim "ok") }
            (generateSecureProtocol protoSrcA)) ++ b)) :=
  ⟨rfl, by decide,
   delivery_failure_fallback (fun _ => true) (fun _ => false) (fun _ => protoSrcA)
     "2026-01-01T00:00:00.000Z" wDUVIDAc "ok" rfl (by decide)⟩

/-- C5 counterexample, refuting "the protocol generator is invoked exactly
once per completed (or failed-but-finalized) conversation": finishing the
flow with an absent send collaborator runs `generateSecureProtocol` twice
(once in the `try` block before the collaborator check, once again in the
`catch` block). -/
theorem protocol_called_twice_counterexample :
    wDUVIDAc.protoCount = 0 ∧
    (handleFlow envAbsent wDUVIDAc "ok").1.protoCount = 2 :=
  ⟨rfl, by decide⟩

/-- C5 (amended): on the success branch the generator runs exactly once and
that single ProtocolID is the one shown in the confirmation message and
embedded in the WhatsApp deep link; on the failure branch the generator
runs twice — the first token is discarded and the second one is the token
embedded in the fallback message's deep link. -/
theorem protocol_generation_amended (env : Env) (w : World) (input : String)
    (hst : w.flowState = FlowState.DUVIDA) :
    (env.sendPresent = true →
      (sendEmailWithRetry env.sendOutcome
        { w.leadData with mensagem := some (jsTrim input) } 3).success = true →
      (handleFlow env w input).1.protoCount = w.protoCount + 1 ∧
      (handleFlow env w input).2 =
        successResponse (protoAt env w.protoCount)
          (waLinkOf (waTextOk { w.leadData with mensagem := some (jsTrim input) }
            (protoAt env w.protoCount)))) ∧
    ((env.sendPresent = false ∨
      (sendEmailWithRetry env.sendOutcome
        { w.leadData with mensagem := some (jsTrim input) } 3).success = false) →
      (handleFlow env w input).1.protoCount = w.protoCount + 2 ∧
      (handleFlow env w input).2 =
        failResponse (waLinkOf (waTextFail
          { w.leadData with mensagem := some (jsTrim input) }
          (protoAt env (w.protoCount + 1))))) := by
  constructor
  · intro hp hs
    rw [handleFlow_DUVIDA_success_eq env w input hst hp hs]
    exact ⟨rfl, rfl⟩
  · intro hor
    rw [handleFlow_DUVIDA_fail_eq env w input hst hor]
    exact ⟨rfl, rfl⟩

/-- C5 (amended) witness: the concrete terminal world under the
always-succeeding and the collaborator-absent environments. -/
theorem protocol_generation_amended_witness :
    wDUVIDAc.flowState = FlowState.DUVIDA ∧
    ((envOk.sendPresent = true →
      (sendEmailWithRetry envOk.sendOutcome
        { wDUVIDAc.leadData with mensagem := some (jsTrim "ok") } 3).success = true →
      (handleFlow envOk wDUVIDAc "ok").1.protoCount = wDUVIDAc.protoCount + 1 ∧
      (handleFlow envOk wDUVIDAc "ok").2 =
        successResponse (protoAt envOk wDUVIDAc.protoCount)
          (waLinkOf (waTextOk { wDUVIDAc.leadData with mensagem := some (jsTrim "ok") }
            (protoAt envOk wDUVIDAc.protoCount)))) ∧
    ((envOk.sendPresent = false ∨
      (sendEmailWithRetry envOk.sendOutcome
        { wDUVIDAc.leadData with mensagem := some (jsTrim "ok") } 3).success = false) →
      (handleFlow envOk wDUVIDAc "ok").1.protoCount = wDUVIDAc.protoCount + 2 ∧
      (handleFlow envOk wDUVIDAc "ok").2 =
        failResponse (waLinkOf (waTextFail
          { wDUVIDAc.leadData with mensagem := some (jsTrim "ok") }
          (protoAt envOk (wDUVIDAc.protoCount + 1)))))) :=
  ⟨rfl, protocol_generation_amended envOk wDUVIDAc "ok" rfl⟩

end Luna
